import Mathlib

/-!
Verification of the PDS_Bot receipt pipeline (src/services/pdf_service.py and
src/bot.py) against its natural-language specification.

The Python code is shallowly embedded: pure helpers become Lean functions,
external engines (pdfplumber, tesseract OCR, the Gemini AI service, the
Telegram transport, the filesystem clock) become explicit environment fields,
and Python dynamic values become the inductive type PyVal.  Machine floats are
modelled by rationals: every numeric value the claims touch is an exact
decimal, so no rounding behaviour is at stake.
-/

namespace PDSBot

/-- Python dynamic values as they occur in this code base (JSON-decoded
responses, cell contents, row fields).  Floats and ints are both modelled by
rationals. -/
inductive PyVal where
  | null
  | bool (b : Bool)
  | num (q : ℚ)
  | str (s : String)
  | arr (l : List PyVal)
  | obj (l : List (String × PyVal))

/-- Python truthiness of a PyVal (`if v:`). -/
def pyTruthy : PyVal → Bool
  | .null => false
  | .bool b => b
  | .num q => q != 0
  | .str s => s != ""
  | .arr l => !l.isEmpty
  | .obj l => !l.isEmpty

/-- Value of a list of decimal digit characters. -/
def digitsToNat (ds : List Char) : ℕ :=
  ds.foldl (fun a c => a * 10 + (c.toNat - 48)) 0

/-- Python regex `\s` / `str.strip` whitespace, restricted to ASCII (the only
characters occurring in this repository's texts). -/
def isWsChar (c : Char) : Bool :=
  c == ' ' || c == '\t' || c == '\n' || c == '\r' || c == Char.ofNat 11 || c == Char.ofNat 12

/-- Model of Python `str.strip()` on the character list. -/
def stripWs (l : List Char) : List Char :=
  ((l.dropWhile isWsChar).reverse.dropWhile isWsChar).reverse

/-- Model of Python `str.strip()`.  (`String.trim` is avoided throughout: its
byte-position recursion does not evaluate inside decide/rfl proofs.) -/
def pyStrip (s : String) : String :=
  String.mk (stripWs s.data)

/-- Model of Python `float()` applied to a string: optional surrounding
whitespace, optional sign, decimal mantissa with at least one digit, optional
exponent.  Non-finite literals (`inf`, `nan`) and digit-group underscores are
not modelled (no value in this code base ever carries them).  Returns
`Option.none` where Python raises `ValueError`.  The result is assembled with
`mkRat` so that it evaluates inside decide/rfl proofs. -/
def pyFloatOfString (s : String) : Option ℚ :=
  let cs := stripWs s.data
  let signRest : ℤ × List Char :=
    match cs with
    | '+' :: r => (1, r)
    | '-' :: r => (-1, r)
    | r => (1, r)
  let (ip, rest1) := signRest.2.span Char.isDigit
  let fracRest : Option (List Char) × List Char :=
    match rest1 with
    | '.' :: r => let p := r.span Char.isDigit; (some p.1, p.2)
    | r => (Option.none, r)
  let fp := fracRest.1.getD []
  if ip.isEmpty && fp.isEmpty then Option.none
  else
    let num : ℤ := signRest.1 * ((digitsToNat ip * 10 ^ fp.length + digitsToNat fp : ℕ) : ℤ)
    let den : ℕ := 10 ^ fp.length
    match fracRest.2 with
    | [] => some (mkRat num den)
    | 'e' :: r | 'E' :: r =>
      let esignRest : Bool × List Char :=
        match r with
        | '+' :: rr => (true, rr)
        | '-' :: rr => (false, rr)
        | rr => (true, rr)
      let (ed, rest2) := esignRest.2.span Char.isDigit
      if ed.isEmpty || !rest2.isEmpty then Option.none
      else
        let e := digitsToNat ed
        some (if esignRest.1 then mkRat (num * (10 ^ e : ℕ)) den else mkRat num (den * 10 ^ e))
    | _ => Option.none

/-- Model of Python `float()` on a PyVal.  `Option.none` stands for a raised
`ValueError`/`TypeError`. -/
def pyFloat : PyVal → Option ℚ
  | .bool b => some (if b then 1 else 0)
  | .num q => some q
  | .str s => pyFloatOfString s
  | _ => Option.none

/-- Model of Python `str()` on the values reaching it in this code.  The
renderings of numbers and containers are representative non-empty strings, not
exact reproductions of CPython repr; no claim depends on those renderings. -/
def pyStr : PyVal → String
  | .str s => s
  | .null => "None"
  | .bool true => "True"
  | .bool false => "False"
  | .num q => toString q.num ++ (if q.den = 1 then "" else "/" ++ toString q.den)
  | .arr _ => "<list>"
  | .obj _ => "<dict>"

/-- `PDFExtractor._parse_amount` (pdf_service.py lines 193-201): strip
everything except digits and dots (commas included), then Python `float()`;
`Option.none` where the source returns `None`. -/
def parse_amount (value : String) : Option ℚ :=
  if value = "" then Option.none
  else pyFloatOfString (String.mk (value.data.filter fun c => c.isDigit || c == '.'))

/-- Rational addition in a form the kernel evaluates (Batteries marks
`Rat.add` irreducible, which blocks decide/rfl evaluation); provably equal to
`a + b`. -/
def qAdd (a b : ℚ) : ℚ := mkRat (a.num * b.den + b.num * a.den) (a.den * b.den)

/-- Rational comparison in a form the kernel evaluates; provably equivalent
to `a ≤ b`. -/
def qLe (a b : ℚ) : Bool := a.num * b.den ≤ b.num * a.den

theorem qAdd_eq (a b : ℚ) : qAdd a b = a + b := by
  have ha : (a.den : ℤ) ≠ 0 := by exact_mod_cast a.den_nz
  have hb : (b.den : ℤ) ≠ 0 := by exact_mod_cast b.den_nz
  rw [qAdd, Rat.mkRat_eq_divInt]
  push_cast
  rw [← Rat.divInt_add_divInt _ _ ha hb, Rat.num_divInt_den, Rat.num_divInt_den]

theorem qLe_iff (a b : ℚ) : qLe a b = true ↔ a ≤ b := by
  have ha : (0 : ℤ) < a.den := by exact_mod_cast a.pos
  have hb : (0 : ℤ) < b.den := by exact_mod_cast b.pos
  rw [qLe, decide_eq_true_eq]
  constructor
  · intro h
    rw [← Rat.num_divInt_den a, ← Rat.num_divInt_den b]
    exact (Rat.divInt_le_divInt ha hb).mpr h
  · intro h
    have := (Rat.divInt_le_divInt ha hb).mp
      (by rwa [Rat.num_divInt_den, Rat.num_divInt_den])
    exact this

/-! ### Regex amount scanning (pdf_service.py lines 37-47 and 203-217)

The concrete patterns are embedded directly.  For these patterns greedy
matching without backtracking is exact, because every starred character class
is disjoint from the class that follows it. -/

/-- Case-insensitive literal match (re.I); returns the remaining input. -/
def matchLitCI : List Char → List Char → Option (List Char)
  | [], s => some s
  | _ :: _, [] => Option.none
  | k :: ks, c :: cs => if c.toLower == k.toLower then matchLitCI ks cs else Option.none

/-- Match keyword segments separated by `\s*` (e.g. `grand\s*total`). -/
def matchKeySegs : List (List Char) → List Char → Option (List Char)
  | [], s => some s
  | [seg], s => matchLitCI seg s
  | seg :: segs, s =>
    match matchLitCI seg s with
    | some s1 => matchKeySegs segs (s1.dropWhile isWsChar)
    | Option.none => Option.none

/-- The capture group `([\d,]+\.?\d*)`: returns (captured chars, rest). -/
def matchAmountGroup (s : List Char) : Option (List Char × List Char) :=
  let p := s.span fun c => c.isDigit || c == ','
  if p.1.isEmpty then Option.none
  else
    match p.2 with
    | '.' :: r =>
      let q := r.span Char.isDigit
      some (p.1 ++ '.' :: q.1, q.2)
    | r => some (p.1, r)

/-- One TOTAL_PATTERNS regex `kw[:\s]*\$?([\d,]+\.?\d*)` tried at the current
position. -/
def matchTotalAt (segs : List (List Char)) (s : List Char) : Option (List Char × List Char) :=
  match matchKeySegs segs s with
  | Option.none => Option.none
  | some s1 =>
    let s2 := s1.dropWhile fun c => c == ':' || isWsChar c
    let s3 := match s2 with
      | '$' :: r => r
      | _ => s2
    matchAmountGroup s3

/-- `re.finditer` for one TOTAL_PATTERNS regex: leftmost non-overlapping
matches, group(1) of each.  Fuel-driven; fuel = input length suffices because
every match consumes at least the keyword. -/
def finditerTotal (segs : List (List Char)) : ℕ → List Char → List String
  | 0, _ => []
  | _, [] => []
  | fuel + 1, c :: cs =>
    match matchTotalAt segs (c :: cs) with
    | some (g, rest) => String.mk g :: finditerTotal segs fuel rest
    | Option.none => finditerTotal segs fuel cs

/-- `DECIMAL_PATTERN = [\d,]+\.\d{2}` tried at the current position; returns
(whole match, rest). -/
def matchDecimalAt (s : List Char) : Option (List Char × List Char) :=
  let p := s.span fun c => c.isDigit || c == ','
  if p.1.isEmpty then Option.none
  else
    match p.2 with
    | '.' :: d1 :: d2 :: rest =>
      if d1.isDigit && d2.isDigit then some (p.1 ++ '.' :: d1 :: [d2], rest)
      else Option.none
    | _ => Option.none

/-- `re.finditer` for DECIMAL_PATTERN, group(0) of each match. -/
def finditerDecimal : ℕ → List Char → List String
  | 0, _ => []
  | _, [] => []
  | fuel + 1, c :: cs =>
    match matchDecimalAt (c :: cs) with
    | some (g, rest) => String.mk g :: finditerDecimal fuel rest
    | Option.none => finditerDecimal fuel cs

/-- `PDFExtractor.TOTAL_PATTERNS` keywords, in source order (the `[:\s]*\$?`
tail and capture group are shared by all four). -/
def TOTAL_KEYWORDS : List (List String) :=
  [["total"], ["grand", "total"], ["amount", "due"], ["subtotal"]]

/-- `PDFExtractor._extract_totals_from_text` (pdf_service.py lines 203-217):
all labeled totals pattern by pattern; if none, all decimal amounts under the
100000 sanity ceiling.  `if amt and amt > 0` keeps a parsed amount only when
it is truthy (nonzero) and positive. -/
def extract_totals_from_text (text : String) : List ℚ :=
  let amounts := TOTAL_KEYWORDS.foldl (fun acc segs =>
    acc ++ (finditerTotal (segs.map String.data) (text.length + 1) text.data).filterMap fun g =>
      match parse_amount g with
      | some a => if a ≠ 0 ∧ a > 0 then some a else Option.none
      | Option.none => Option.none) []
  if amounts.isEmpty then
    (finditerDecimal (text.length + 1) text.data).filterMap fun g =>
      match parse_amount g with
      | some a => if a ≠ 0 ∧ a > 0 ∧ a < 100000 then some a else Option.none
      | Option.none => Option.none
  else amounts

example : parse_amount "1,234.56" = some (mkRat 123456 100) := by decide
example : parse_amount "N/A" = Option.none := by decide
example : extract_totals_from_text "Receipt from ACME Store\nTotal: 42.50" = [mkRat 85 2] := by decide
example : extract_totals_from_text "nothing here" = [] := by decide
example : extract_totals_from_text "items 12.34 and 9,999.99" = [mkRat 617 50, mkRat 999999 100] := by decide

/-! ### LineItem rows and Gemini JSON normalization (pdf_service.py 310-358) -/

/-- One normalized receipt row (the Python dicts with keys Date, Item, Price,
Qty, Total).  `date = Option.none` models a dict without the "Date" key (table
rows); numeric fields stay PyVal because a failed `float()` coercion leaves
the raw JSON value in place. -/
structure Row where
  date : Option String
  item : String
  price : PyVal
  qty : PyVal
  total : PyVal

/-- Python `dict.get(k, default)` on a JSON object.  `json.loads` keeps the
last of duplicate keys, hence the reverse lookup. -/
def objGetD (l : List (String × PyVal)) (k : String) (d : PyVal) : PyVal :=
  match l.reverse.find? (fun p => p.1 == k) with
  | some p => p.2
  | Option.none => d

/-- The row constructed for one JSON object before numeric coercion
(pdf_service.py lines 340-346). -/
def rowOfObj (dateStr : String) (o : List (String × PyVal)) : Row :=
  { date := some (pyStr (objGetD o "Date" (.str dateStr)))
    item := pyStr (objGetD o "Item" (.str "Unknown"))
    price := objGetD o "Price" (.num 0)
    qty := objGetD o "Qty" (.num 1)
    total := objGetD o "Total" (.num 0) }

/-- One assignment `float(x) if x else default`: a falsy value takes the
default without calling `float`; `Option.none` is a raised conversion. -/
def coerce1 (v : PyVal) (dflt : ℚ) : Option ℚ :=
  if pyTruthy v then pyFloat v else some dflt

/-- The try-block of pdf_service.py lines 347-352: coerce Price, then Qty,
then Total with `float(x) if x else default`; the first raising coercion
aborts the remaining assignments (the except clause only passes), so earlier
fields keep their already-assigned floats and later fields their raw values. -/
def floatCoerceFields (r : Row) : Row :=
  match coerce1 r.price 0 with
  | Option.none => r
  | some p =>
    let r1 : Row := { r with price := .num p }
    match coerce1 r1.qty 1 with
    | Option.none => r1
    | some q =>
      let r2 : Row := { r1 with qty := .num q }
      match coerce1 r2.total 0 with
      | Option.none => r2
      | some t => { r2 with total := .num t }

/-- `PDFExtractor._parse_gemini_json_response` from the `json.loads` result
onward (pdf_service.py lines 331-358): reject non-lists, skip non-dict
entries, normalize each dict, return `Option.none` when nothing survives.
The markdown stripping and `json.loads` of lines 313-331 are abstracted: the
environment supplies the decoded value (`Option.none` standing for an empty
response or a JSONDecodeError). -/
def parse_gemini_json_response (dateStr : String) (v : PyVal) : Option (List Row) :=
  match v with
  | .arr items =>
    let normalized := items.filterMap fun it =>
      match it with
      | .obj o => some (floatCoerceFields (rowOfObj dateStr o))
      | _ => Option.none
    if normalized.isEmpty then Option.none else some normalized
  | _ => Option.none

/-! ### Today's date (datetime.now().strftime("%d/%m/%Y")) -/

/-- Decimal digit character of `n % 10`. -/
def digitChar (n : ℕ) : Char := Char.ofNat (48 + n % 10)

/-- Model of `datetime.now().strftime("%d/%m/%Y")` for an in-range date:
zero-padded day and month, four-digit year. -/
def formatDMY (d m y : ℕ) : String :=
  String.mk [digitChar (d / 10), digitChar d, '/', digitChar (m / 10), digitChar m, '/',
    digitChar (y / 1000), digitChar (y / 100), digitChar (y / 10), digitChar y]

example :
    parse_gemini_json_response "11/10/2026"
      (.arr [.obj [("Item", .str "Coffee"), ("Price", .num (mkRat 9 2)), ("Qty", .num 1),
        ("Total", .num (mkRat 9 2))]]) =
    some [{ date := some "11/10/2026", item := "Coffee", price := .num (mkRat 9 2),
            qty := .num 1, total := .num (mkRat 9 2) }] := by
  rfl

example :
    parse_gemini_json_response "11/10/2026"
      (.arr [.obj [("Item", .str "Thing"), ("Total", .str "1,234.56")]]) =
    some [{ date := some "11/10/2026", item := "Thing", price := .num 0,
            qty := .num 1, total := .str "1,234.56" }] := by
  rfl

example : formatDMY 11 10 2026 = "11/10/2026" := by decide

/-! ### The extraction pipeline (pdf_service.py 138-191, 219-244, 394-466)

External engines are opaque collaborators; one `ExtractorEnv` records, for a
fixed input document, what each engine call would return.  Model boundaries:
pdfplumber page contents, OCR and Gemini responses are environment fields;
for the two Gemini JSON stages the environment supplies the decoded JSON
value (`Option.none` = empty response or undecodable), since the markdown
stripping plus `json.loads` of lines 313-331 belong to that boundary. -/

/-- Everything the pipeline observes about one document and the external
engines' behaviour on it. -/
structure ExtractorEnv where
  /-- Lowercased file suffix (`Path(file_path).suffix.lower()`). -/
  ext : String
  /-- `Path(file_path).exists()`. -/
  fileExists : Bool
  /-- `self.ocr_available` (pytesseract/pdf2image importable). -/
  ocr_available : Bool
  /-- Output of `_extract_text_pdfplumber` (text layer plus stringified tables). -/
  pdfplumberText : String
  /-- Output of `_extract_text_ocr` (empty when OCR fails or is unavailable). -/
  ocrPdfText : String
  /-- Output of `_extract_text_from_image`. -/
  ocrImageText : String
  /-- Output of `_extract_text_via_gemini_vision` on the image file. -/
  visionImageText : String
  /-- Output of `_extract_text_from_pdf_via_gemini_vision`. -/
  visionPdfText : String
  /-- Decoded JSON of the direct-vision response for an image document. -/
  visionImageJson : Option PyVal
  /-- Per-page decoded JSON for `_parse_receipt_directly_from_pdf_image`;
  `Option.none` when `convert_from_path` raises or returns no pages. -/
  pdfVisionPageJsons : Option (List (Option PyVal))
  /-- Decoded JSON of the text-structuring Gemini response. -/
  textGeminiJson : Option PyVal
  /-- `page.extract_tables()` cells across all pages, stringified-or-None. -/
  tables : List (List (List (Option String)))
  /-- `datetime.now()` day, month, year. -/
  day : ℕ
  month : ℕ
  year : ℕ

/-- `datetime.now().strftime("%d/%m/%Y")` under this environment's clock. -/
def todayStr (env : ExtractorEnv) : String := formatDMY env.day env.month env.year

/-- Whether the suffix is one of the image extensions of pdf_service.py
lines 170 and 414 (`.jpg`, `.jpeg`, `.png`, `.webp`). -/
def isImageExt (ext : String) : Bool :=
  ext == ".jpg" || ext == ".jpeg" || ext == ".png" || ext == ".webp"

/-- The failure message of pdf_service.py lines 186-189. -/
def qualityErrorMsg : String :=
  "Unable to extract text. The document may be scanned with poor quality - please ensure the receipt is clear and legible."

/-- `len(text.strip()) < 20`, with `not text or ...` folded in (an empty
string also strips to length 0). -/
def tooShort (text : String) : Bool :=
  text == "" || (pyStrip text).length < 20

/-- The shared final check of pdf_service.py lines 181-191: fail with the
quality error when under 20 stripped characters, else return the stripped
text. -/
def finishText (text : String) : String × Bool × Option String :=
  if tooShort text then ("", false, some qualityErrorMsg)
  else (pyStrip text, true, Option.none)

/-- `PDFExtractor.extract_text` (pdf_service.py lines 138-191).  PDF:
pdfplumber, then OCR when available, then Gemini Vision on the first page;
images: Gemini Vision first, OCR fallback; then the final 20-character check
on the stripped text. -/
def extract_text (env : ExtractorEnv) : String × Bool × Option String :=
  if !env.fileExists then ("", false, some "File not found")
  else if env.ext == ".pdf" then
    let text1 := env.pdfplumberText
    let text2 := if tooShort text1 && env.ocr_available then env.ocrPdfText else text1
    let text3 :=
      if tooShort text2 && env.ocr_available then
        if env.visionPdfText != "" && !tooShort env.visionPdfText then env.visionPdfText else text2
      else text2
    finishText text3
  else if isImageExt env.ext then
    let text :=
      if env.visionImageText != "" && !tooShort env.visionImageText then env.visionImageText
      else if env.ocr_available then env.ocrImageText
      else ""
    finishText text
  else
    ("", false, some ("Unsupported file type: " ++ env.ext ++ ". Use PDF, JPG, PNG, or WEBP."))

/-- Python `dict.get` on the header→cell dict built by
`dict(zip(headers, cells))`: presence of the key decides, later duplicate
keys overwrite earlier ones. -/
def dictGetD (d : List (String × String)) (k : String) (dflt : String) : String :=
  match (d.filter fun p => p.1 == k).getLast? with
  | some p => p.2
  | Option.none => dflt

/-- Python `x or default` on an optional float: `None` and `0.0` are falsy. -/
def orQ (x : Option ℚ) (d : ℚ) : ℚ :=
  match x with
  | some q => if q = 0 then d else q
  | Option.none => d

/-- Truthiness of an optional float (`if total:`). -/
def truthyOptQ (x : Option ℚ) : Bool :=
  match x with
  | some q => q != 0
  | Option.none => false

/-- `PDFExtractor._extract_items_from_tables` (pdf_service.py lines 219-244).
The page loop is flattened into one list of tables (only order matters, and
it is preserved).  Cells arrive as `str(cell or "")`. -/
def extract_items_from_tables (tables : List (List (List (Option String)))) : List Row :=
  tables.foldl (fun items table =>
    match table with
    | [] => items
    | [_] => items
    | header :: rows =>
      let headers := header.map fun h => String.mk ((stripWs (h.getD "").data).map Char.toLower)
      items ++ rows.filterMap fun row =>
        let cells := row.map fun c => pyStrip (c.getD "")
        let d := headers.zip cells
        let itemName := dictGetD d "item" (dictGetD d "description" (dictGetD d "name" ""))
        let price := parse_amount (dictGetD d "price" (dictGetD d "unit price" ""))
        let qty : ℚ := orQ (parse_amount (dictGetD d "qty" (dictGetD d "quantity" "1"))) 1
        let total := parse_amount (dictGetD d "total" (dictGetD d "amount" ""))
        if itemName != "" || truthyOptQ total then
          some { date := Option.none
                 item := if itemName = "" then "Unknown" else itemName
                 price := .num (orQ price 0)
                 qty := .num qty
                 total := .num (if truthyOptQ total then (total.getD 0)
                   else if truthyOptQ price then mkRat ((price.getD 0).num * qty.num) ((price.getD 0).den * qty.den)
                   else 0) }
        else Option.none) []

/-- `PDFExtractor._parse_receipt_directly_from_image` (pdf_service.py lines
275-308): no response → no items, otherwise normalize the decoded JSON. -/
def parse_receipt_directly_from_image (dateStr : String) (j : Option PyVal) : Option (List Row) :=
  match j with
  | some v => parse_gemini_json_response dateStr v
  | Option.none => Option.none

/-- `PDFExtractor._parse_receipt_directly_from_pdf_image` (pdf_service.py
lines 246-273): requires pdf2image, converts every page, collects each
page's vision items, `None` when nothing was collected or conversion
raised. -/
def parse_receipt_directly_from_pdf_image (dateStr : String) (env : ExtractorEnv) : Option (List Row) :=
  if !env.ocr_available then Option.none
  else
    match env.pdfVisionPageJsons with
    | Option.none => Option.none
    | some pages =>
      let allItems := pages.foldl (fun acc pj =>
        match parse_receipt_directly_from_image dateStr pj with
        | some pageItems => acc ++ pageItems
        | Option.none => acc) []
      if allItems.isEmpty then Option.none else some allItems

/-- `PDFExtractor._parse_receipt_with_gemini` (pdf_service.py lines 360-392):
no response → no items, otherwise normalize the decoded JSON. -/
def parse_receipt_with_gemini (dateStr : String) (j : Option PyVal) : Option (List Row) :=
  match j with
  | some v => parse_gemini_json_response dateStr v
  | Option.none => Option.none

/-- The tuple returned by `extract_receipt_data`. -/
structure ExtractionResult where
  items : List Row
  success : Bool
  error : Option String
  method : String

/-- The failure message of pdf_service.py lines 455-458. -/
def noAmountsErrorMsg : String :=
  "Unable to extract amounts from the receipt due to quality or format issues. Please ensure the receipt is clear and contains recognizable price/total information."

/-- The date-defaulting loop of pdf_service.py lines 460-464: any item whose
"Date" key is absent or falsy gets today's date. -/
def ensureDates (dateStr : String) (l : List Row) : List Row :=
  l.map fun r =>
    match r.date with
    | Option.none => { r with date := some dateStr }
    | some s => if s = "" then { r with date := some dateStr } else r

/-- The direct Gemini Vision stage of `extract_receipt_data` (pdf_service.py
lines 413-424): images always try it, PDFs only when pdf2image is
available. -/
def directVisionStage (env : ExtractorEnv) : Option (List Row) :=
  if isImageExt env.ext then parse_receipt_directly_from_image (todayStr env) env.visionImageJson
  else if env.ext == ".pdf" && env.ocr_available then
    parse_receipt_directly_from_pdf_image (todayStr env) env
  else Option.none

/-- `PDFExtractor.extract_receipt_data` (pdf_service.py lines 394-466):
direct vision, then text + Gemini structuring, then PDF table extraction,
then the regex amount fallback, each stage consulted only when every earlier
stage produced no items. -/
def extract_receipt_data (env : ExtractorEnv) : ExtractionResult :=
  let dateStr := todayStr env
  match directVisionStage env with
  | some l => ⟨ensureDates dateStr l, true, Option.none, "gemini_vision"⟩
  | Option.none =>
    match extract_text env with
    | (text, ok, err) =>
      if !ok then ⟨[], false, err, "text_extraction_failed"⟩
      else
        match parse_receipt_with_gemini dateStr env.textGeminiJson with
        | some l => ⟨ensureDates dateStr l, true, Option.none, "gemini_text"⟩
        | Option.none =>
          let tableItems := if env.ext == ".pdf" then extract_items_from_tables env.tables else []
          if !tableItems.isEmpty then ⟨ensureDates dateStr tableItems, true, Option.none, "pdfplumber_tables"⟩
          else
            match extract_totals_from_text text with
            | a :: _ =>
              ⟨ensureDates dateStr
                [{ date := some dateStr, item := "Receipt Total", price := .num a, qty := .num 1, total := .num a }],
                true, Option.none, "regex_fallback"⟩
            | [] => ⟨[], false, some noAmountsErrorMsg, "failed"⟩

/-! ### Concrete environments used to instantiate the theorems -/

/-- An image whose direct-vision call returns one Coffee line item. -/
def envVisionW : ExtractorEnv :=
  { ext := ".jpg", fileExists := true, ocr_available := true,
    pdfplumberText := "", ocrPdfText := "", ocrImageText := "",
    visionImageText := "", visionPdfText := "",
    visionImageJson := some (.arr [.obj [("Item", .str "Coffee"), ("Price", .num (mkRat 9 2)),
      ("Qty", .num 1), ("Total", .num (mkRat 9 2))]]),
    pdfVisionPageJsons := Option.none, textGeminiJson := Option.none,
    tables := [], day := 11, month := 10, year := 2026 }

/-- An image whose structured stages all come back empty but whose recovered
text carries a labeled total. -/
def envRegexW : ExtractorEnv :=
  { envVisionW with
    visionImageJson := Option.none,
    visionImageText := "Receipt from ACME Store\nTotal: 42.50" }

/-- An image with usable text but no recognizable amount anywhere. -/
def envNoAmountsW : ExtractorEnv :=
  { envVisionW with
    visionImageJson := Option.none,
    visionImageText := "This receipt says nothing numeric at all" }

example :
    extract_receipt_data envVisionW =
      ⟨[{ date := some "11/10/2026", item := "Coffee", price := .num (mkRat 9 2),
          qty := .num 1, total := .num (mkRat 9 2) }], true, Option.none, "gemini_vision"⟩ := by
  rfl

example :
    extract_receipt_data envRegexW =
      ⟨[{ date := some "11/10/2026", item := "Receipt Total", price := .num (mkRat 85 2),
          qty := .num 1, total := .num (mkRat 85 2) }], true, Option.none, "regex_fallback"⟩ := by
  rfl

example :
    extract_receipt_data envNoAmountsW = ⟨[], false, some noAmountsErrorMsg, "failed"⟩ := by
  rfl

/-! ### Media-group collector (bot.py lines 35-37, 294-323, 366-375)

The asyncio behaviour is modelled as a discrete-event simulation: handler
bodies and the lock-guarded registry section run atomically (the event loop
is single-threaded and the code never awaits while holding the lock), and
`asyncio.sleep(d)` wakes exactly at arm-time + d.  An enqueue event is a
qualifying document delivery reaching the `if is_receipt / if mg_id` branch
of `handle_document`; a timer firing is `_flush_media_group` resuming after
its sleep. -/

/-- `_MEDIA_GROUP_DELAY = 2.5`. -/
def MEDIA_GROUP_DELAY : ℚ := mkRat 5 2

/-- One qualifying document delivery carrying a media-group id. -/
structure EnqEvent where
  time : ℚ
  mg : String
  doc : ℕ
deriving DecidableEq

/-- One sealed batch handed to `_process_media_group_receipts`: firing time,
burst id, collected documents in append order. -/
structure Flush where
  time : ℚ
  mg : String
  docs : List ℕ
deriving DecidableEq

/-- `mg_id in _pending_media_groups`. -/
def regHas (reg : List (String × List ℕ)) (mg : String) : Bool :=
  reg.any fun e => e.1 == mg

/-- `_pending_media_groups[mg_id] = {..., "items": []}` (fresh entry). -/
def regAdd (reg : List (String × List ℕ)) (mg : String) : List (String × List ℕ) :=
  reg ++ [(mg, [])]

/-- `_pending_media_groups[mg_id]["items"].append(doc)`. -/
def regAppendDoc (reg : List (String × List ℕ)) (mg : String) (d : ℕ) : List (String × List ℕ) :=
  reg.map fun e => if e.1 == mg then (e.1, e.2 ++ [d]) else e

/-- `_pending_media_groups.pop(mg_id, None)`: the entry (if any) and the
registry without it. -/
def regPop (reg : List (String × List ℕ)) (mg : String) :
    Option (List ℕ) × List (String × List ℕ) :=
  match reg.find? (fun e => e.1 == mg) with
  | some e => (some e.2, reg.filter fun e2 => !(e2.1 == mg))
  | Option.none => (Option.none, reg)

/-- Discrete-event run of the collector: remaining enqueue events (in
delivery order), armed debounce timers (fire time, burst id; armed in
increasing fire-time order because delivery times are processed in order),
and the registry.  A timer firing pops its batch and emits a `Flush` unless
the entry is missing or empty (bot.py lines 369-372); an enqueue registers a
fresh entry and arms one timer only when the id is new, then appends the
document (bot.py lines 311-320).  Ties go to the timer; the claims only
concern tie-free traces.  Fuel bounds the number of processed actions. -/
def simCollector : ℕ → List EnqEvent → List (ℚ × String) → List (String × List ℕ) → List Flush
  | 0, _, _, _ => []
  | fuel + 1, evs, timers, reg =>
    match evs, timers with
    | [], [] => []
    | [], (tf, mg) :: ts =>
      match regPop reg mg with
      | (some docs, reg2) =>
        if docs.isEmpty then simCollector fuel [] ts reg2
        else ⟨tf, mg, docs⟩ :: simCollector fuel [] ts reg2
      | (Option.none, reg2) => simCollector fuel [] ts reg2
    | e :: es, [] =>
      if regHas reg e.mg then
        simCollector fuel es [] (regAppendDoc reg e.mg e.doc)
      else
        simCollector fuel es [(qAdd e.time MEDIA_GROUP_DELAY, e.mg)]
          (regAppendDoc (regAdd reg e.mg) e.mg e.doc)
    | e :: es, (tf, mg) :: ts =>
      if qLe tf e.time then
        match regPop reg mg with
        | (some docs, reg2) =>
          if docs.isEmpty then simCollector fuel (e :: es) ts reg2
          else ⟨tf, mg, docs⟩ :: simCollector fuel (e :: es) ts reg2
        | (Option.none, reg2) => simCollector fuel (e :: es) ts reg2
      else
        if regHas reg e.mg then
          simCollector fuel es ((tf, mg) :: ts) (regAppendDoc reg e.mg e.doc)
        else
          simCollector fuel es ((tf, mg) :: ts ++ [(qAdd e.time MEDIA_GROUP_DELAY, e.mg)])
            (regAppendDoc (regAdd reg e.mg) e.mg e.doc)

/-- Run the collector from the empty registry on a delivery trace. -/
def runCollector (evs : List EnqEvent) : List Flush :=
  simCollector (2 * evs.length + 1) evs [] []

/-! ### Batch aggregation (bot.py `_process_media_group_receipts`, 378-475) -/

/-- What happens when `_process_single_receipt` plus the Sheets update run
for one document of a batch: either the pipeline call returns (with the
possible Sheets exception recorded), or `asyncio.wait_for` times out, or
some other exception escapes (download failure, etc.). -/
inductive DocRun where
  | done (res : ExtractionResult) (sheetsErr : Option String)
  | timeout
  | raises (msg : String)

/-- Running aggregation state of the batch loop (bot.py lines 397-401). -/
structure BatchState where
  allItems : List Row
  summaryLines : List String
  totalAmount : ℚ
  methods : List String
  errors : List String

/-- `methods_used.add(m)` (insertion-ordered model of the Python set). -/
def addMethod (ms : List String) (m : String) : List String :=
  if ms.contains m then ms else ms ++ [m]

/-- Abstraction of the f-string money rendering `${amt:,.2f}`; the exact
CPython float formatting is not reproduced and no claim depends on it. -/
def fmtMoney (q : ℚ) : String := toString q.num ++ "c/" ++ toString q.den

/-- One iteration of the summary-building loop (bot.py lines 416-425): a
`float(total)` failure renders "-" and does not touch the running sum. -/
def summaryStep (st2 : BatchState) (it : Row) : BatchState :=
  let dateBought := pyStrip (it.date.getD "")
  let name := pyStrip it.item
  match pyFloat it.total with
  | some amt =>
    { st2 with totalAmount := qAdd st2.totalAmount amt,
               summaryLines := st2.summaryLines ++ [dateBought ++ " | " ++ name ++ " | $" ++ fmtMoney amt] }
  | Option.none =>
    { st2 with summaryLines := st2.summaryLines ++ [dateBought ++ " | " ++ name ++ " | -"] }

/-- The summary-building loop over one document's items. -/
def addSummary (st : BatchState) (items : List Row) : BatchState :=
  items.foldl summaryStep st

/-- The body of the per-document loop (bot.py lines 406-449) for the
document at 0-based index `i`.  On a successful pipeline result the Sheets
update runs first (its exception is caught by the generic handler and
recorded like any other); the Drive upload of lines 426-436 only toggles
`drive_uploaded`/`drive_error` and is modelled in the resource section
instead.  Failures append exactly one tagged error string and the loop moves
on. -/
def processDoc (i : ℕ) (st : BatchState) (run : DocRun) : BatchState :=
  match run with
  | .done res sheetsErr =>
    if res.success && !res.items.isEmpty then
      match sheetsErr with
      | some m => { st with errors := st.errors ++ ["Receipt " ++ toString (i + 1) ++ ": " ++ m] }
      | Option.none =>
        let st2 := { st with allItems := st.allItems ++ res.items,
                             methods := addMethod st.methods res.method }
        addSummary st2 res.items
    else
      let msg := match res.error with
        | some m => if m = "" then "No data extracted" else m
        | Option.none => "No data extracted"
      { st with errors := st.errors ++ ["Receipt " ++ toString (i + 1) ++ ": " ++ msg] }
  | .timeout => { st with errors := st.errors ++ ["Receipt " ++ toString (i + 1) ++ ": Timed out"] }
  | .raises m => { st with errors := st.errors ++ ["Receipt " ++ toString (i + 1) ++ ": " ++ m] }

/-- The whole batch loop from the empty aggregation state. -/
def processBatch (runs : List DocRun) : BatchState :=
  (runs.enum).foldl (fun st p => processDoc p.1 st p.2) ⟨[], [], 0, [], []⟩

/-- Tri-state overall outcome, read off the reply branching of bot.py lines
451-472: a summary plus errors is a partial success, only errors is total
failure. -/
def batchOutcome (st : BatchState) : String :=
  if !st.summaryLines.isEmpty then
    if !st.errors.isEmpty then "partial" else "all_succeeded"
  else if !st.errors.isEmpty then "all_failed"
  else "no_data"

/-! ### Temporary-file lifecycle (bot.py 335-363, 406-449, 486-607)

Filesystem effects of one document's processing, as created/unlinked temp
file identifiers.  `os.unlink` inside the except/finally blocks is recorded
as a deletion (its own OSError is swallowed, best-effort). -/

/-- Behaviour of the awaited `extract_receipt_data` executor call. -/
inductive ExtractCall where
  | completes (res : ExtractionResult)
  | timesOut
  | raisesExc (msg : String)

/-- External behaviour relevant to one document's temp-file lifecycle. -/
structure SingleReceiptEnv where
  /-- `file.download_to_drive` succeeds (False = it raises inside the
  NamedTemporaryFile with-block). -/
  downloadOk : Bool
  extract : ExtractCall
  /-- Identifier of the temp file `tempfile.NamedTemporaryFile` creates. -/
  tmp : ℕ

/-- How `_process_single_receipt` finishes: a returned result carrying the
temp path, or a propagated exception. -/
inductive SingleOutcome where
  | ret (res : ExtractionResult) (tmpPath : ℕ)
  | exn

/-- `_process_single_receipt` (bot.py lines 335-363): the temp file is
created first; a failing download propagates out of the with-block with no
unlink anywhere; the except block around the extraction unlinks and
re-raises; a completed extraction returns the path for the caller to
delete. -/
def process_single_receipt_effects (env : SingleReceiptEnv) :
    (List ℕ × List ℕ) × SingleOutcome :=
  if !env.downloadOk then (([env.tmp], []), .exn)
  else
    match env.extract with
    | .completes res => (([env.tmp], []), .ret res env.tmp)
    | .timesOut => (([env.tmp], [env.tmp]), .exn)
    | .raisesExc _ => (([env.tmp], [env.tmp]), .exn)

/-- Temp-file effects of one iteration of the media-group loop (bot.py lines
406-449): `tmp_path` starts as None, is bound only when
`_process_single_receipt` returns, and the finally block unlinks it exactly
when bound — also when the Sheets or Drive step raised afterwards. -/
def media_group_doc_effects (env : SingleReceiptEnv) : List ℕ × List ℕ :=
  match process_single_receipt_effects env with
  | (eff, .ret _ tmpPath) => (eff.1, eff.2 ++ [tmpPath])
  | (eff, .exn) => eff

/-- Temp-file effects of the non-burst handler `handle_receipt_extraction`
(bot.py lines 486-607): the file is created and downloaded at lines 509-511,
before the try/finally of lines 513-607; every path through that try —
timeout return, failure return, success, inner exception — runs the finally
unlink, but a failing download raises before the try is entered. -/
def handle_receipt_effects (env : SingleReceiptEnv) : List ℕ × List ℕ :=
  if !env.downloadOk then ([env.tmp], [])
  else ([env.tmp], [env.tmp])

/-! ### The sub-stage order asserted by claim C4, for comparison

This definition follows the claim's words, not the source: text recovery
tries (a) direct text-layer extraction (PDF only), (b) OCR raster-to-text,
(c) AI-vision-as-OCR, and terminates at the first sub-stage producing at
least 20 non-whitespace characters. -/

/-- Number of non-whitespace characters. -/
def nonWsLen (t : String) : ℕ := (t.data.filter fun c => !isWsChar c).length

/-- The claim's asserted recovery behaviour (spec wording, not source). -/
def claimedTextRecovery (env : ExtractorEnv) : Option String :=
  ((if env.ext == ".pdf" then [env.pdfplumberText] else []) ++
    [(if env.ext == ".pdf" then env.ocrPdfText else env.ocrImageText),
     (if env.ext == ".pdf" then env.visionPdfText else env.visionImageText)]).find?
    fun t => 20 ≤ nonWsLen t

/-! ### Collector sanity checks -/

example :
    runCollector [⟨0, "g", 1⟩, ⟨1, "g", 2⟩, ⟨2, "g", 3⟩] =
      [⟨mkRat 5 2, "g", [1, 2, 3]⟩] := by
  decide

example :
    runCollector [⟨0, "g", 1⟩, ⟨2, "g", 2⟩, ⟨1, "g", 3⟩] =
      [⟨mkRat 5 2, "g", [1, 2, 3]⟩] := by
  decide

example :
    runCollector [⟨0, "g", 1⟩, ⟨3, "g", 2⟩] =
      [⟨mkRat 5 2, "g", [1]⟩, ⟨mkRat 11 2, "g", [2]⟩] := by
  decide

/-! ### Helper lemmas -/

/-- A Gemini normalization that returns items returns at least one. -/
theorem parse_gemini_ne_nil {d : String} {v : PyVal} {l : List Row}
    (h : parse_gemini_json_response d v = some l) : l ≠ [] := by
  cases v with
  | arr items =>
    unfold parse_gemini_json_response at h
    dsimp only at h
    split_ifs at h with he
    injection h with h2
    intro hnil
    exact he (by rw [h2, hnil]; rfl)
  | null => exact Option.noConfusion h
  | bool b => exact Option.noConfusion h
  | num q => exact Option.noConfusion h
  | str s2 => exact Option.noConfusion h
  | obj o => exact Option.noConfusion h

/-- The per-page collection over a PDF never returns an empty item list. -/
theorem parse_pdf_vision_ne_nil {d : String} {env : ExtractorEnv} {l : List Row}
    (h : parse_receipt_directly_from_pdf_image d env = some l) : l ≠ [] := by
  unfold parse_receipt_directly_from_pdf_image at h
  split_ifs at h
  cases hp : env.pdfVisionPageJsons with
  | none => rw [hp] at h; exact Option.noConfusion h
  | some pages =>
    rw [hp] at h
    dsimp only at h
    split_ifs at h with he
    injection h with h2
    intro hnil
    exact he (by rw [h2, hnil]; rfl)

/-- The direct-vision stage never returns an empty item list. -/
theorem directVisionStage_ne_nil {env : ExtractorEnv} {l : List Row}
    (h : directVisionStage env = some l) : l ≠ [] := by
  unfold directVisionStage at h
  split_ifs at h
  · unfold parse_receipt_directly_from_image at h
    cases hj : env.visionImageJson with
    | none => rw [hj] at h; exact Option.noConfusion h
    | some v => rw [hj] at h; exact parse_gemini_ne_nil h
  · exact parse_pdf_vision_ne_nil h

/-- The text-structuring stage never returns an empty item list. -/
theorem parse_with_gemini_ne_nil {d : String} {j : Option PyVal} {l : List Row}
    (h : parse_receipt_with_gemini d j = some l) : l ≠ [] := by
  unfold parse_receipt_with_gemini at h
  cases j with
  | none => cases h
  | some v => exact parse_gemini_ne_nil h

/-- Date defaulting preserves nonemptiness. -/
theorem ensureDates_ne_nil {d : String} {l : List Row} (h : l ≠ []) :
    ensureDates d l ≠ [] := by
  unfold ensureDates
  simpa using h

/-- Every row surviving date defaulting with a nonempty default has a
populated, nonempty date. -/
theorem date_of_mem_ensureDates {dStr : String} {l : List Row} {r : Row}
    (hd : dStr ≠ "") (hm : r ∈ ensureDates dStr l) :
    ∃ s, r.date = some s ∧ s ≠ "" := by
  unfold ensureDates at hm
  rcases List.mem_map.mp hm with ⟨r0, _, rfl⟩
  cases h : r0.date with
  | none => exact ⟨dStr, by simp [h], hd⟩
  | some s =>
    by_cases hs : s = ""
    · subst hs
      exact ⟨dStr, by simp [h], hd⟩
    · exact ⟨s, by simp [h, hs], hs⟩

/-- The model of strftime("%d/%m/%Y") always renders ten characters. -/
theorem formatDMY_ne_empty (d m y : ℕ) : formatDMY d m y ≠ "" := by
  intro h
  have h2 := congrArg String.data h
  simp [formatDMY] at h2

/-- A failed final check always carries the quality error. -/
theorem finishText_false_err {text t : String} {err : Option String}
    (h : finishText text = (t, false, err)) : err = some qualityErrorMsg := by
  unfold finishText at h
  split_ifs at h
  · exact (congrArg (fun p => p.2.2) h).symm
  · have h2 := congrArg (fun p => p.2.1) h
    simp at h2

/-- A failed text extraction always carries an error message. -/
theorem extract_text_false_err {env : ExtractorEnv} {t : String} {err : Option String}
    (h : extract_text env = (t, false, err)) : err ≠ Option.none := by
  unfold extract_text at h
  split_ifs at h
  all_goals
    first
    | (rw [finishText_false_err h]
       exact fun hc => Option.noConfusion hc)
    | (have h2 := congrArg (fun p => p.2.2) h
       dsimp at h2
       rw [← h2]
       exact fun hc => Option.noConfusion hc)

/-! ### Branch equations for `extract_receipt_data` -/

/-- Direct vision produced items: the pipeline stops there. -/
theorem erd_vision_eq {env : ExtractorEnv} {l : List Row}
    (h : directVisionStage env = some l) :
    extract_receipt_data env =
      ⟨ensureDates (todayStr env) l, true, Option.none, "gemini_vision"⟩ := by
  unfold extract_receipt_data
  rw [h]

/-- Text recovery failed: the pipeline propagates its error. -/
theorem erd_textfail_eq {env : ExtractorEnv} {t : String} {err : Option String}
    (hdv : directVisionStage env = Option.none)
    (ht : extract_text env = (t, false, err)) :
    extract_receipt_data env = ⟨[], false, err, "text_extraction_failed"⟩ := by
  unfold extract_receipt_data
  rw [hdv, ht]
  rfl

/-- Gemini structured the recovered text: method `gemini_text`. -/
theorem erd_gemini_text_eq {env : ExtractorEnv} {t : String} {e : Option String} {l : List Row}
    (hdv : directVisionStage env = Option.none)
    (ht : extract_text env = (t, true, e))
    (hg : parse_receipt_with_gemini (todayStr env) env.textGeminiJson = some l) :
    extract_receipt_data env =
      ⟨ensureDates (todayStr env) l, true, Option.none, "gemini_text"⟩ := by
  unfold extract_receipt_data
  rw [hdv, ht]
  simp only [Bool.not_true, Bool.false_eq_true, if_false, hg]

/-- The PDF table fallback produced rows: method `pdfplumber_tables`. -/
theorem erd_tables_eq {env : ExtractorEnv} {t : String} {e : Option String}
    (hdv : directVisionStage env = Option.none)
    (ht : extract_text env = (t, true, e))
    (hg : parse_receipt_with_gemini (todayStr env) env.textGeminiJson = Option.none)
    (htbl : (if env.ext == ".pdf" then extract_items_from_tables env.tables else []) ≠ []) :
    extract_receipt_data env =
      ⟨ensureDates (todayStr env)
        (if env.ext == ".pdf" then extract_items_from_tables env.tables else []),
        true, Option.none, "pdfplumber_tables"⟩ := by
  unfold extract_receipt_data
  rw [hdv, ht]
  simp only [Bool.not_true, Bool.false_eq_true, if_false, hg]
  rw [if_pos]
  simpa [List.isEmpty_iff] using htbl

/-- The regex fallback matched an amount: one synthetic row. -/
theorem erd_regex_eq {env : ExtractorEnv} {t : String} {e : Option String} {a : ℚ} {rest : List ℚ}
    (hdv : directVisionStage env = Option.none)
    (ht : extract_text env = (t, true, e))
    (hg : parse_receipt_with_gemini (todayStr env) env.textGeminiJson = Option.none)
    (htbl : (if env.ext == ".pdf" then extract_items_from_tables env.tables else []) = [])
    (hamt : extract_totals_from_text t = a :: rest) :
    extract_receipt_data env =
      ⟨ensureDates (todayStr env)
        [{ date := some (todayStr env), item := "Receipt Total",
           price := .num a, qty := .num 1, total := .num a }],
        true, Option.none, "regex_fallback"⟩ := by
  unfold extract_receipt_data
  rw [hdv, ht]
  simp only [Bool.not_true, Bool.false_eq_true, if_false, hg, htbl, List.isEmpty_nil,
    Bool.not_false, if_true, hamt]

/-- Nothing matched anywhere: the no-amounts failure. -/
theorem erd_failed_eq {env : ExtractorEnv} {t : String} {e : Option String}
    (hdv : directVisionStage env = Option.none)
    (ht : extract_text env = (t, true, e))
    (hg : parse_receipt_with_gemini (todayStr env) env.textGeminiJson = Option.none)
    (htbl : (if env.ext == ".pdf" then extract_items_from_tables env.tables else []) = [])
    (hamt : extract_totals_from_text t = []) :
    extract_receipt_data env = ⟨[], false, some noAmountsErrorMsg, "failed"⟩ := by
  unfold extract_receipt_data
  rw [hdv, ht]
  simp only [Bool.not_true, Bool.false_eq_true, if_false, hg, htbl, List.isEmpty_nil,
    Bool.not_false, if_true, hamt]

/-- Exhaustive shape of any pipeline outcome: a success carries nonempty,
date-defaulted items and a method other than "failed"; a failure carries no
items and an error message. -/
theorem erd_cases (env : ExtractorEnv) :
    (∃ l me, l ≠ [] ∧ me ≠ "failed" ∧
      extract_receipt_data env = ⟨ensureDates (todayStr env) l, true, Option.none, me⟩) ∨
    (∃ m me, extract_receipt_data env = ⟨[], false, some m, me⟩) := by
  cases hdv : directVisionStage env with
  | some l =>
    exact Or.inl ⟨l, "gemini_vision", directVisionStage_ne_nil hdv, by decide, erd_vision_eq hdv⟩
  | none =>
    rcases ht : extract_text env with ⟨t, ok, err⟩
    cases ok with
    | false =>
      rcases Option.ne_none_iff_exists'.mp (extract_text_false_err ht) with ⟨m, hm⟩
      exact Or.inr ⟨m, "text_extraction_failed", by rw [erd_textfail_eq hdv ht, hm]⟩
    | true =>
      cases hg : parse_receipt_with_gemini (todayStr env) env.textGeminiJson with
      | some l =>
        exact Or.inl ⟨l, "gemini_text", parse_with_gemini_ne_nil hg, by decide,
          erd_gemini_text_eq hdv ht hg⟩
      | none =>
        by_cases htbl : (if env.ext == ".pdf" then extract_items_from_tables env.tables else []) = []
        · cases hamt : extract_totals_from_text t with
          | cons a rest =>
            exact Or.inl ⟨[⟨some (todayStr env), "Receipt Total", .num a, .num 1, .num a⟩],
              "regex_fallback", by simp, by decide, erd_regex_eq hdv ht hg htbl hamt⟩
          | nil =>
            exact Or.inr ⟨noAmountsErrorMsg, "failed", erd_failed_eq hdv ht hg htbl hamt⟩
        · exact Or.inl ⟨_, "pdfplumber_tables", htbl, by decide, erd_tables_eq hdv ht hg htbl⟩

/-! ### Claim C6 -/

/-- Claim C6: whenever the direct AI-vision stage returns at least one item,
`extract_receipt_data` returns exactly those items (after the date-defaulting
pass), with success and method `gemini_vision`, consulting no later stage —
the result does not depend on the text, table or regex machinery. -/
theorem direct_vision_short_circuits (env : ExtractorEnv) (l : List Row)
    (h : directVisionStage env = some l) :
    extract_receipt_data env =
      ⟨ensureDates (todayStr env) l, true, Option.none, "gemini_vision"⟩ := by
  unfold extract_receipt_data
  rw [h]

/-- The single Coffee row of the end-to-end example. -/
def rowCoffeeW : Row :=
  { date := some "11/10/2026", item := "Coffee", price := .num (mkRat 9 2),
    qty := .num 1, total := .num (mkRat 9 2) }

/-- Witness for C6: the synthetic receipt image whose vision stub returns one
Coffee item at 4.5 yields exactly that LineItem, method `gemini_vision`, and
item total 4.5. -/
theorem direct_vision_short_circuits_witness :
    directVisionStage envVisionW = some [rowCoffeeW] ∧
    extract_receipt_data envVisionW = ⟨[rowCoffeeW], true, Option.none, "gemini_vision"⟩ ∧
    pyFloat rowCoffeeW.total = some (mkRat 9 2) ∧
    (extract_receipt_data envVisionW).items.length = 1 := by
  refine ⟨by rfl, ?_, by rfl, by rfl⟩
  rw [direct_vision_short_circuits envVisionW [rowCoffeeW] (by rfl)]
  rfl

/-! ### Claim C3 -/

/-- Claim C3: when no earlier stage produced items and the recovered text
matches an amount, the regex fallback emits exactly one synthetic
"Receipt Total" LineItem dated today whose Price and Total are the first
matched amount; when no amount matches at all, the pipeline fails with the
no-amounts error and method `failed`. -/
theorem regex_fallback_behaviour (env : ExtractorEnv) (t : String) (a : ℚ) (rest : List ℚ)
    (hvision : directVisionStage env = Option.none)
    (htext : extract_text env = (t, true, Option.none))
    (hgem : parse_receipt_with_gemini (todayStr env) env.textGeminiJson = Option.none)
    (htables : env.ext = ".pdf" → extract_items_from_tables env.tables = []) :
    (extract_totals_from_text t = a :: rest →
      extract_receipt_data env =
        ⟨[{ date := some (todayStr env), item := "Receipt Total",
            price := .num a, qty := .num 1, total := .num a }],
          true, Option.none, "regex_fallback"⟩) ∧
    (extract_totals_from_text t = [] →
      extract_receipt_data env = ⟨[], false, some noAmountsErrorMsg, "failed"⟩) := by
  have htbl : (if env.ext == ".pdf" then extract_items_from_tables env.tables else []) = [] := by
    by_cases hext : env.ext = ".pdf"
    · simp [hext, htables hext]
    · simp [hext]
  constructor
  · intro hamt
    unfold extract_receipt_data
    rw [hvision, htext]
    simp only [Bool.not_true, Bool.false_eq_true, if_false, hgem, htbl, List.isEmpty_nil,
      Bool.not_false, if_true, hamt]
    unfold ensureDates
    by_cases hts : todayStr env = "" <;> simp [hts]
  · intro hamt
    unfold extract_receipt_data
    rw [hvision, htext]
    simp only [Bool.not_true, Bool.false_eq_true, if_false, hgem, htbl, List.isEmpty_nil,
      Bool.not_false, if_true, hamt]

/-- Witness for C3: an image whose recovered text is
"Receipt from ACME Store\nTotal: 42.50" yields the single 42.50
"Receipt Total" item, and one with no amounts fails with the no-amounts
error. -/
theorem regex_fallback_behaviour_witness :
    extract_totals_from_text "Receipt from ACME Store\nTotal: 42.50" = [mkRat 85 2] ∧
    extract_receipt_data envRegexW =
      ⟨[{ date := some "11/10/2026", item := "Receipt Total",
          price := .num (mkRat 85 2), qty := .num 1, total := .num (mkRat 85 2) }],
        true, Option.none, "regex_fallback"⟩ ∧
    extract_totals_from_text "This receipt says nothing numeric at all" = [] ∧
    extract_receipt_data envNoAmountsW = ⟨[], false, some noAmountsErrorMsg, "failed"⟩ := by
  refine ⟨by decide, ?_, by decide, ?_⟩
  · exact (regex_fallback_behaviour envRegexW
      "Receipt from ACME Store\nTotal: 42.50" (mkRat 85 2) []
      (by rfl) (by rfl) (by rfl) (fun h => absurd h (by decide))).1 (by decide)
  · exact (regex_fallback_behaviour envNoAmountsW
      "This receipt says nothing numeric at all" 0 []
      (by rfl) (by rfl) (by rfl) (fun h => absurd h (by decide))).2 (by decide)

/-! ### Claim C7 -/

/-- Claim C7: every pipeline outcome satisfies exactly one of
success-with-nonempty-items-and-a-method-other-than-"failed" or
failure-with-empty-items-and-an-error-message. -/
theorem outcome_invariant (env : ExtractorEnv) :
    (((extract_receipt_data env).success = true ∧ (extract_receipt_data env).items ≠ [] ∧
        (extract_receipt_data env).method ≠ "failed") ∨
      ((extract_receipt_data env).success = false ∧ (extract_receipt_data env).items = [] ∧
        (extract_receipt_data env).error ≠ Option.none)) ∧
    ¬(((extract_receipt_data env).success = true ∧ (extract_receipt_data env).items ≠ [] ∧
        (extract_receipt_data env).method ≠ "failed") ∧
      ((extract_receipt_data env).success = false ∧ (extract_receipt_data env).items = [] ∧
        (extract_receipt_data env).error ≠ Option.none)) := by
  constructor
  · rcases erd_cases env with ⟨l, me, hne, hme, heq⟩ | ⟨m, me, heq⟩
    · left
      rw [heq]
      exact ⟨rfl, ensureDates_ne_nil hne, hme⟩
    · right
      rw [heq]
      exact ⟨rfl, rfl, fun hc => Option.noConfusion hc⟩
  · rintro ⟨⟨h1, -, -⟩, h2, -, -⟩
    rw [h1] at h2
    exact Bool.noConfusion h2

/-! ### Claim C8 -/

/-- Claim C8: every LineItem of a successful extraction carries a populated,
nonempty date, whichever stage produced it (omitted dates are defaulted to
today's DD/MM/YYYY). -/
theorem success_items_dated (env : ExtractorEnv) (r : Row)
    (hs : (extract_receipt_data env).success = true)
    (hm : r ∈ (extract_receipt_data env).items) :
    ∃ s, r.date = some s ∧ s ≠ "" := by
  have hd : todayStr env ≠ "" := formatDMY_ne_empty env.day env.month env.year
  rcases erd_cases env with ⟨l, me, -, -, heq⟩ | ⟨m, me, heq⟩
  · rw [heq] at hm
    exact date_of_mem_ensureDates hd hm
  · rw [heq] at hs
    exact Bool.noConfusion hs

/-- Witness for C8: the Coffee item of the vision example carries the
populated date. -/
theorem success_items_dated_witness :
    (extract_receipt_data envVisionW).success = true ∧
    rowCoffeeW ∈ (extract_receipt_data envVisionW).items ∧
    ∃ s, rowCoffeeW.date = some s ∧ s ≠ "" := by
  have hm : rowCoffeeW ∈ (extract_receipt_data envVisionW).items := by
    show rowCoffeeW ∈ [rowCoffeeW]
    exact List.mem_singleton.mpr rfl
  exact ⟨rfl, hm, success_items_dated envVisionW rowCoffeeW rfl hm⟩

/-! ### Claim C2 -/

/-- Counterexample to C2 as stated: in the Gemini normalization a Total of
"1,234.56" raises inside the swallowed `float()` call and survives as the raw
string — it is not the number 1234.56; likewise "N/A" stays "N/A" rather
than 0.  (The item itself is still kept.) -/
theorem gemini_comma_total_stays_string :
    parse_gemini_json_response "11/10/2026"
        (.arr [.obj [("Item", .str "Thing"), ("Total", .str "1,234.56")]]) =
      some [⟨some "11/10/2026", "Thing", .num 0, .num 1, .str "1,234.56"⟩] ∧
    PyVal.str "1,234.56" ≠ PyVal.num (mkRat 123456 100) ∧
    parse_gemini_json_response "11/10/2026"
        (.arr [.obj [("Item", .str "Gadget"), ("Total", .str "N/A")]]) =
      some [⟨some "11/10/2026", "Gadget", .num 0, .num 1, .str "N/A"⟩] ∧
    PyVal.str "N/A" ≠ PyVal.num 0 := by
  exact ⟨by rfl, fun hc => PyVal.noConfusion hc, by rfl, fun hc => PyVal.noConfusion hc⟩

/-- All-objects JSON arrays normalize one row per entry. -/
theorem filterMap_obj_length (dStr : String) : ∀ (vs : List PyVal),
    (∀ v ∈ vs, ∃ o, v = PyVal.obj o) →
    (vs.filterMap fun it => match it with
      | PyVal.obj o => some (floatCoerceFields (rowOfObj dStr o))
      | _ => Option.none).length = vs.length
  | [], _ => rfl
  | v :: vs2, h => by
    rcases h v (List.mem_cons_self v vs2) with ⟨o, rfl⟩
    simpa [List.filterMap_cons] using
      filterMap_obj_length dStr vs2 fun w hw => h w (List.mem_cons_of_mem _ hw)

/-- Claim C2 (amended): the Gemini normalization never raises and never
drops a JSON-object entry — the output has exactly one row per object — and
the comma/garbage-tolerant coercion that turns "1,234.56" into 1234.56 and
"N/A" into nothing (hence 0 downstream) lives in `parse_amount`, used by the
table and regex stages. -/
theorem coercion_tolerance_amended (dStr : String) (vs : List PyVal)
    (h : ∀ v ∈ vs, ∃ o, v = PyVal.obj o) (hne : vs ≠ []) :
    (∃ l, parse_gemini_json_response dStr (.arr vs) = some l ∧ l.length = vs.length) ∧
    parse_amount "1,234.56" = some (mkRat 123456 100) ∧
    parse_amount "N/A" = Option.none := by
  refine ⟨?_, by decide, by decide⟩
  refine ⟨_, ?_, filterMap_obj_length dStr vs h⟩
  unfold parse_gemini_json_response
  dsimp only
  rw [if_neg]
  intro hemp
  have hlen := filterMap_obj_length dStr vs h
  rw [List.isEmpty_iff] at hemp
  rw [hemp] at hlen
  exact hne (List.length_eq_zero.mp hlen.symm)

/-- Witness for the amended C2 at a concrete one-object array. -/
theorem coercion_tolerance_amended_witness :
    ∃ l, parse_gemini_json_response "11/10/2026"
        (.arr [PyVal.obj [("Item", PyVal.str "Thing"), ("Total", PyVal.str "1,234.56")]]) = some l ∧
      l.length = 1 := by
  have h := coercion_tolerance_amended "11/10/2026"
    [PyVal.obj [("Item", PyVal.str "Thing"), ("Total", PyVal.str "1,234.56")]]
    (by
      intro v hv
      rw [List.mem_singleton] at hv
      exact ⟨_, hv⟩)
    (List.cons_ne_nil _ _)
  exact h.1

/-! ### Claim C10 -/

/-- Counterexample to C10 as stated: when an earlier field's `float()`
raises (Price = "abc"), the shared try-block aborts and a literal Qty of 0
IS preserved — it is not normalized to 1. -/
theorem qty_zero_preserved_on_price_error :
    parse_gemini_json_response "11/10/2026"
        (.arr [.obj [("Item", .str "X"), ("Price", .str "abc"), ("Qty", .num 0)]]) =
      some [⟨some "11/10/2026", "X", .str "abc", .num 0, .num 0⟩] ∧
    PyVal.num 0 ≠ PyVal.num 1 := by
  refine ⟨by rfl, fun hc => ?_⟩
  injection hc with h2
  exact absurd h2 (by decide)

/-- Arrays with no JSON objects normalize to nothing. -/
theorem filterMap_obj_nil (dStr : String) : ∀ (vs : List PyVal),
    (∀ v ∈ vs, ∀ o2, v ≠ PyVal.obj o2) →
    (vs.filterMap fun it => match it with
      | PyVal.obj o => some (floatCoerceFields (rowOfObj dStr o))
      | _ => Option.none) = []
  | [], _ => rfl
  | v :: vs2, h => by
    cases v with
    | obj o2 => exact absurd rfl (h _ (List.mem_cons_self _ _) o2)
    | null =>
      simpa [List.filterMap_cons] using
        filterMap_obj_nil dStr vs2 fun w hw => h w (List.mem_cons_of_mem _ hw)
    | bool b =>
      simpa [List.filterMap_cons] using
        filterMap_obj_nil dStr vs2 fun w hw => h w (List.mem_cons_of_mem _ hw)
    | num q =>
      simpa [List.filterMap_cons] using
        filterMap_obj_nil dStr vs2 fun w hw => h w (List.mem_cons_of_mem _ hw)
    | str s2 =>
      simpa [List.filterMap_cons] using
        filterMap_obj_nil dStr vs2 fun w hw => h w (List.mem_cons_of_mem _ hw)
    | arr l2 =>
      simpa [List.filterMap_cons] using
        filterMap_obj_nil dStr vs2 fun w hw => h w (List.mem_cons_of_mem _ hw)

/-- Claim C10 (amended): a falsy Price is defaulted to 0 unconditionally; a
falsy (absent, 0, or otherwise) Qty is normalized to 1 provided the Price
coercion did not raise; a falsy Total is defaulted to 0 provided neither
earlier coercion raised; non-object array entries are skipped; and when no
entry survives, the stage reports no result. -/
theorem gemini_item_normalization (dStr : String) (o : List (String × PyVal)) :
    (pyTruthy (rowOfObj dStr o).price = false →
      (floatCoerceFields (rowOfObj dStr o)).price = .num 0) ∧
    (∀ p, coerce1 (rowOfObj dStr o).price 0 = some p →
      pyTruthy (rowOfObj dStr o).qty = false →
      (floatCoerceFields (rowOfObj dStr o)).qty = .num 1) ∧
    (∀ p q, coerce1 (rowOfObj dStr o).price 0 = some p →
      coerce1 (rowOfObj dStr o).qty 1 = some q →
      pyTruthy (rowOfObj dStr o).total = false →
      (floatCoerceFields (rowOfObj dStr o)).total = .num 0) ∧
    (∀ vs : List PyVal, (∀ v ∈ vs, ∀ o2, v ≠ PyVal.obj o2) →
      parse_gemini_json_response dStr (.arr vs) = Option.none) := by
  refine ⟨?_, ?_, ?_, ?_⟩
  · intro hp
    unfold floatCoerceFields
    rw [show coerce1 (rowOfObj dStr o).price 0 = some 0 by unfold coerce1; rw [hp]; rfl]
    dsimp only
    cases coerce1 (rowOfObj dStr o).qty 1 with
    | none => rfl
    | some q =>
      dsimp only
      cases coerce1 (rowOfObj dStr o).total 0 with
      | none => rfl
      | some t => rfl
  · intro p hp hq
    unfold floatCoerceFields
    rw [hp]
    dsimp only
    rw [show coerce1 (rowOfObj dStr o).qty 1 = some 1 by unfold coerce1; rw [hq]; rfl]
    dsimp only
    cases coerce1 (rowOfObj dStr o).total 0 with
    | none => rfl
    | some t => rfl
  · intro p q hp hq ht
    unfold floatCoerceFields
    rw [hp]
    dsimp only
    rw [hq]
    dsimp only
    rw [show coerce1 (rowOfObj dStr o).total 0 = some 0 by unfold coerce1; rw [ht]; rfl]
  · intro vs hvs
    unfold parse_gemini_json_response
    dsimp only
    rw [if_pos]
    rw [filterMap_obj_nil dStr vs hvs]
    rfl

/-- Witness for the amended C10: Price absent (falsy) and Qty literally 0
yield Price 0 and Qty 1; an array holding only a string normalizes to
nothing. -/
theorem gemini_item_normalization_witness :
    (floatCoerceFields (rowOfObj "01/01/2026" [("Qty", PyVal.num 0)])).qty = .num 1 ∧
    (floatCoerceFields (rowOfObj "01/01/2026" [("Qty", PyVal.num 0)])).price = .num 0 ∧
    parse_gemini_json_response "01/01/2026" (.arr [PyVal.str "stray"]) = Option.none := by
  refine ⟨(gemini_item_normalization "01/01/2026" [("Qty", PyVal.num 0)]).2.1 0 (by rfl) (by rfl),
    (gemini_item_normalization "01/01/2026" [("Qty", PyVal.num 0)]).1 (by rfl),
    (gemini_item_normalization "01/01/2026" []).2.2.2 [PyVal.str "stray"] ?_⟩
  intro v hv o2 hc
  rw [List.mem_singleton] at hv
  rw [hv] at hc
  exact PyVal.noConfusion hc

/-! ### Claim C4 -/

/-- An image whose vision-as-OCR and OCR engines both return long (but
different) texts, to separate the claimed sub-stage order from the code's. -/
def envC4 : ExtractorEnv :=
  { envRegexW with
    visionImageText := "VISIONTEXTVISIONTEXTVISIONTEXT",
    ocrImageText := "OCRTEXTOCRTEXTOCRTEXTOCRTEXT" }

/-- Counterexample to C4 as stated: for an image the code consults Gemini
Vision BEFORE OCR, so its recovered text differs from the claimed
OCR-before-vision order. -/
theorem text_recovery_order_counterexample :
    claimedTextRecovery envC4 = some "OCRTEXTOCRTEXTOCRTEXTOCRTEXT" ∧
    extract_text envC4 = ("VISIONTEXTVISIONTEXTVISIONTEXT", true, Option.none) ∧
    ("VISIONTEXTVISIONTEXTVISIONTEXT" : String) ≠ "OCRTEXTOCRTEXTOCRTEXTOCRTEXT" := by
  exact ⟨by rfl, by rfl, by decide⟩

/-- Claim C4 (amended): for PDFs the sub-stage order is text layer, then OCR
(when available), then vision, terminating at the first text of at least 20
characters after stripping outer whitespace; for images vision is tried
first, OCR second; and a failed recovery propagates its error with method
`text_extraction_failed` and runs no later stage. -/
theorem text_recovery_amended :
    (∀ env : ExtractorEnv, env.fileExists = true → env.ext = ".pdf" →
      tooShort env.pdfplumberText = false →
      extract_text env = (pyStrip env.pdfplumberText, true, Option.none)) ∧
    (∀ env : ExtractorEnv, env.fileExists = true → env.ext = ".pdf" →
      tooShort env.pdfplumberText = true → env.ocr_available = true →
      tooShort env.ocrPdfText = false →
      extract_text env = (pyStrip env.ocrPdfText, true, Option.none)) ∧
    (∀ env : ExtractorEnv, env.fileExists = true → env.ext = ".pdf" →
      tooShort env.pdfplumberText = true → env.ocr_available = true →
      tooShort env.ocrPdfText = true →
      env.visionPdfText ≠ "" → tooShort env.visionPdfText = false →
      extract_text env = (pyStrip env.visionPdfText, true, Option.none)) ∧
    (∀ env : ExtractorEnv, env.fileExists = true → isImageExt env.ext = true →
      env.visionImageText ≠ "" → tooShort env.visionImageText = false →
      extract_text env = (pyStrip env.visionImageText, true, Option.none)) ∧
    (∀ env : ExtractorEnv, env.fileExists = true → isImageExt env.ext = true →
      tooShort env.visionImageText = true → env.ocr_available = true →
      tooShort env.ocrImageText = false →
      extract_text env = (pyStrip env.ocrImageText, true, Option.none)) ∧
    (∀ (env : ExtractorEnv) (t : String) (err : Option String),
      directVisionStage env = Option.none → extract_text env = (t, false, err) →
      extract_receipt_data env = ⟨[], false, err, "text_extraction_failed"⟩) := by
  refine ⟨?_, ?_, ?_, ?_, ?_, fun env t err hdv ht => erd_textfail_eq hdv ht⟩
  · intro env h1 h2 h3
    simp [extract_text, finishText, h1, h2, h3]
  · intro env h1 h2 h3 h4 h5
    simp [extract_text, finishText, h1, h2, h3, h4, h5]
  · intro env h1 h2 h3 h4 h5 h6 h7
    simp [extract_text, finishText, h1, h2, h3, h4, h5, h6, h7]
  · intro env h1 h2 h3 h4
    by_cases hpdf : env.ext = ".pdf"
    · rw [hpdf] at h2
      exact absurd h2 (by decide)
    · simp [extract_text, finishText, h1, h2, h3, h4, hpdf]
  · intro env h1 h2 h3 h4 h5
    by_cases hpdf : env.ext = ".pdf"
    · rw [hpdf] at h2
      exact absurd h2 (by decide)
    · simp [extract_text, finishText, h1, h2, h3, h4, h5, hpdf]

/-- A PDF with a usable text layer, for the amended C4. -/
def envPdfW : ExtractorEnv :=
  { envVisionW with
    ext := ".pdf", visionImageJson := Option.none, ocr_available := false,
    pdfplumberText := "INVOICE 123 DUE LATER THIS WEEK" }

/-- An image on which every text engine comes back empty. -/
def envNoTextW : ExtractorEnv :=
  { envVisionW with visionImageJson := Option.none, visionImageText := "", ocrImageText := "" }

/-- Witness for the amended C4: vision-first on an image, text-layer-first
on a PDF, and error propagation with no later stage on an unreadable
image. -/
theorem text_recovery_amended_witness :
    extract_text envC4 = ("VISIONTEXTVISIONTEXTVISIONTEXT", true, Option.none) ∧
    extract_text envPdfW = ("INVOICE 123 DUE LATER THIS WEEK", true, Option.none) ∧
    extract_receipt_data envNoTextW = ⟨[], false, some qualityErrorMsg, "text_extraction_failed"⟩ := by
  refine ⟨?_, ?_, ?_⟩
  · exact text_recovery_amended.2.2.2.1 envC4 rfl rfl (by decide) (by decide)
  · exact text_recovery_amended.1 envPdfW rfl rfl (by decide)
  · exact text_recovery_amended.2.2.2.2.2 envNoTextW "" (some qualityErrorMsg) (by rfl) (by rfl)

/-! ### Claim C9 -/

/-- Claim C9 evaluated: when the download raises inside the
NamedTemporaryFile with-block, no path unlinks the created temp file (the
leak), while after any completed download — extraction success, pipeline
failure, timeout or exception — every exit path deletes it, in both the
media-group loop and the single-receipt handler. -/
theorem tmpfile_lifecycle :
    media_group_doc_effects ⟨false, .timesOut, 7⟩ = ([7], []) ∧
    handle_receipt_effects ⟨false, .timesOut, 7⟩ = ([7], []) ∧
    (∀ (n : ℕ) (e : ExtractCall), media_group_doc_effects ⟨true, e, n⟩ = ([n], [n])) ∧
    (∀ (n : ℕ) (e : ExtractCall), handle_receipt_effects ⟨true, e, n⟩ = ([n], [n])) := by
  refine ⟨by rfl, by rfl, ?_, ?_⟩
  · intro n e
    cases e <;> rfl
  · intro n e
    rfl

/-! ### Claim C5 -/

/-- The LineItems a document contributes to the batch: only a completed,
successful, nonempty pipeline result whose Sheets update did not raise. -/
def successItems : DocRun → List Row
  | .done res Option.none => if res.success && !res.items.isEmpty then res.items else []
  | _ => []

/-- The error entry the loop records for the document at 0-based index `i`,
if any: position-tagged, with timeouts distinctly labelled. -/
def runError (i : ℕ) : DocRun → Option String
  | .done res sheetsErr =>
    if res.success && !res.items.isEmpty then
      match sheetsErr with
      | some m => some ("Receipt " ++ toString (i + 1) ++ ": " ++ m)
      | Option.none => Option.none
    else
      some ("Receipt " ++ toString (i + 1) ++ ": " ++
        (match res.error with
         | some m => if m = "" then "No data extracted" else m
         | Option.none => "No data extracted"))
  | .timeout => some ("Receipt " ++ toString (i + 1) ++ ": Timed out")
  | .raises m => some ("Receipt " ++ toString (i + 1) ++ ": " ++ m)

/-- Whether the loop records an error for this run. -/
def isFailedRun : DocRun → Bool
  | .done res sheetsErr =>
    if res.success && !res.items.isEmpty then sheetsErr.isSome else true
  | .timeout => true
  | .raises _ => true

theorem summaryStep_errors (st : BatchState) (it : Row) :
    (summaryStep st it).errors = st.errors := by
  unfold summaryStep
  cases pyFloat it.total <;> rfl

theorem summaryStep_allItems (st : BatchState) (it : Row) :
    (summaryStep st it).allItems = st.allItems := by
  unfold summaryStep
  cases pyFloat it.total <;> rfl

theorem addSummary_errors : ∀ (items : List Row) (st : BatchState),
    (addSummary st items).errors = st.errors
  | [], _ => rfl
  | it :: its, st => by
    show (addSummary (summaryStep st it) its).errors = st.errors
    rw [addSummary_errors its (summaryStep st it), summaryStep_errors]

theorem addSummary_allItems : ∀ (items : List Row) (st : BatchState),
    (addSummary st items).allItems = st.allItems
  | [], _ => rfl
  | it :: its, st => by
    show (addSummary (summaryStep st it) its).allItems = st.allItems
    rw [addSummary_allItems its (summaryStep st it), summaryStep_allItems]

theorem processDoc_errors (i : ℕ) (st : BatchState) (r : DocRun) :
    (processDoc i st r).errors = st.errors ++ (runError i r).toList := by
  cases r with
  | done res sheetsErr =>
    unfold processDoc runError
    dsimp only
    by_cases hc : (res.success && !res.items.isEmpty) = true
    · rw [if_pos hc, if_pos hc]
      cases sheetsErr with
      | some m => simp
      | none =>
        dsimp only
        rw [addSummary_errors]
        simp
    · rw [if_neg hc, if_neg hc]
      simp
  | timeout => simp [processDoc, runError]
  | raises m => simp [processDoc, runError]

theorem processDoc_allItems (i : ℕ) (st : BatchState) (r : DocRun) :
    (processDoc i st r).allItems = st.allItems ++ successItems r := by
  cases r with
  | done res sheetsErr =>
    unfold processDoc successItems
    cases sheetsErr with
    | some m =>
      dsimp only
      by_cases hc : (res.success && !res.items.isEmpty) = true
      · rw [if_pos hc]; simp
      · rw [if_neg hc]; simp
    | none =>
      dsimp only
      by_cases hc : (res.success && !res.items.isEmpty) = true
      · rw [if_pos hc, if_pos hc]
        rw [addSummary_allItems]
      · rw [if_neg hc, if_neg hc]; simp
  | timeout => simp [processDoc, successItems]
  | raises m => simp [processDoc, successItems]

theorem runError_isSome (i : ℕ) (r : DocRun) :
    (runError i r).isSome = isFailedRun r := by
  cases r with
  | done res sheetsErr =>
    unfold runError isFailedRun
    dsimp only
    by_cases hc : (res.success && !res.items.isEmpty) = true
    · rw [if_pos hc, if_pos hc]
      cases sheetsErr <;> rfl
    · rw [if_neg hc, if_neg hc]
      rfl
  | timeout => rfl
  | raises m => rfl

/-- The batch loop, unrolled from an arbitrary start index and state. -/
theorem processBatch_go : ∀ (runs : List DocRun) (i0 : ℕ) (st : BatchState),
    (((runs.enumFrom i0).foldl (fun st2 p => processDoc p.1 st2 p.2) st).errors =
      st.errors ++ ((runs.enumFrom i0).filterMap fun p => runError p.1 p.2)) ∧
    (((runs.enumFrom i0).foldl (fun st2 p => processDoc p.1 st2 p.2) st).allItems =
      st.allItems ++ (runs.map successItems).flatten)
  | [], i0, st => by simp
  | r :: rs, i0, st => by
    rw [List.enumFrom_cons]
    constructor
    · rw [List.foldl_cons, List.filterMap_cons]
      have hrec := (processBatch_go rs (i0 + 1) (processDoc i0 st r)).1
      dsimp only at hrec ⊢
      rw [hrec, processDoc_errors]
      cases runError i0 r <;> simp
    · rw [List.foldl_cons, List.map_cons, List.flatten_cons]
      have hrec := (processBatch_go rs (i0 + 1) (processDoc i0 st r)).2
      dsimp only at hrec ⊢
      rw [hrec, processDoc_allItems, List.append_assoc]

theorem length_filterMap_runError : ∀ (runs : List DocRun) (i0 : ℕ),
    ((runs.enumFrom i0).filterMap fun p => runError p.1 p.2).length =
      (runs.filter isFailedRun).length
  | [], _ => rfl
  | r :: rs, i0 => by
    rw [List.enumFrom_cons, List.filterMap_cons, List.filter_cons]
    dsimp only
    cases hfail : isFailedRun r with
    | false =>
      have hnone : runError i0 r = Option.none := by
        have h2 := runError_isSome i0 r
        rw [hfail] at h2
        exact Option.not_isSome_iff_eq_none.mp (by rw [h2]; exact Bool.false_ne_true)
      rw [hnone]
      simpa using length_filterMap_runError rs (i0 + 1)
    | true =>
      have h2 := runError_isSome i0 r
      rw [hfail] at h2
      rcases Option.isSome_iff_exists.mp h2 with ⟨m, hm⟩
      rw [hm]
      simp [length_filterMap_runError rs (i0 + 1)]

/-- The regex-fallback row of the 42.50 example. -/
def rowReceiptTotalW : Row :=
  ⟨some "11/10/2026", "Receipt Total", .num (mkRat 85 2), .num 1, .num (mkRat 85 2)⟩

/-- The 3-document batch in which document 2 times out. -/
def runsPartialW : List DocRun :=
  [.done (extract_receipt_data envVisionW) Option.none,
   .timeout,
   .done (extract_receipt_data envRegexW) Option.none]

/-- Claim C5: the batch loop visits documents in enqueue order; every failed
or timed-out document contributes exactly one position-tagged error entry
(timeouts labelled "Timed out") and never aborts the loop, so the merged
items are exactly the concatenation of the successful documents' items in
order; a concrete 3-document batch whose second document times out yields a
partial outcome with both successful item groups and the single error
"Receipt 2: Timed out". -/
theorem batch_isolation :
    (∀ runs : List DocRun,
      (processBatch runs).allItems = (runs.map successItems).flatten ∧
      (processBatch runs).errors = (runs.enum.filterMap fun p => runError p.1 p.2) ∧
      (processBatch runs).errors.length = (runs.filter isFailedRun).length) ∧
    (∀ i : ℕ, runError i DocRun.timeout =
      some ("Receipt " ++ toString (i + 1) ++ ": Timed out")) ∧
    batchOutcome (processBatch runsPartialW) = "partial" ∧
    (processBatch runsPartialW).errors = ["Receipt 2: Timed out"] ∧
    (processBatch runsPartialW).allItems = [rowCoffeeW, rowReceiptTotalW] := by
  refine ⟨?_, fun i => rfl, by rfl, by rfl, by rfl⟩
  intro runs
  have hgo := processBatch_go runs 0 ⟨[], [], 0, [], []⟩
  refine ⟨?_, ?_, ?_⟩
  · have := hgo.2
    simpa [processBatch, List.enum] using this
  · have := hgo.1
    simpa [processBatch, List.enum] using this
  · have := hgo.1
    simp only [processBatch, List.enum] at this ⊢
    rw [this]
    simpa using length_filterMap_runError runs 0

/-! ### Claim C1 -/

/-- An idle collector stays idle. -/
theorem simCollector_nil : ∀ fuel : ℕ, simCollector fuel [] [] [] = []
  | 0 => rfl
  | _ + 1 => rfl

/-- Popping the only registered burst. -/
theorem regPop_single (mg : String) (acc : List ℕ) :
    regPop [(mg, acc)] mg = (some acc, []) := by
  unfold regPop
  rw [List.find?_cons_of_pos _ (by simp)]
  simp

/-- Draining the remaining enqueues of a single armed burst: every event
before the timer appends to the batch, and the timer then seals and flushes
it once. -/
theorem simCollector_drain : ∀ (rest : List EnqEvent) (fuel : ℕ) (tf : ℚ) (mg : String)
    (acc : List ℕ), rest.length + 2 ≤ fuel →
    (∀ e ∈ rest, e.mg = mg) →
    (∀ e ∈ rest, qLe tf e.time = false) →
    acc ≠ [] →
    simCollector fuel rest [(tf, mg)] [(mg, acc)] =
      [⟨tf, mg, acc ++ rest.map EnqEvent.doc⟩]
  | [], fuel, tf, mg, acc, hf, _, _, hacc => by
    match fuel, hf with
    | f + 1, hf =>
      rw [simCollector]
      rw [regPop_single]
      dsimp only
      rw [if_neg (by simpa [List.isEmpty_iff] using hacc)]
      rw [simCollector_nil]
      simp
  | e :: es, fuel, tf, mg, acc, hf, hmg, hlt, hacc => by
    match fuel, hf with
    | f + 1, hf =>
      rw [simCollector]
      rw [hlt e (List.mem_cons_self e es)]
      rw [if_neg Bool.false_ne_true]
      have he : e.mg = mg := hmg e (List.mem_cons_self e es)
      rw [if_pos (by simp [regHas, he])]
      have happ : regAppendDoc [(mg, acc)] e.mg e.doc = [(mg, acc ++ [e.doc])] := by
        simp [regAppendDoc, he]
      rw [happ]
      rw [simCollector_drain es f tf mg (acc ++ [e.doc])
        (by simp only [List.length_cons] at hf; omega)
        (fun w hw => hmg w (List.mem_cons_of_mem _ hw))
        (fun w hw => hlt w (List.mem_cons_of_mem _ hw))
        (by simp)]
      simp

/-- Claim C1: all qualifying documents enqueued under one burst id within
the 2.5-unit debounce window are sealed into a single flush, exactly 2.5
time units after the FIRST enqueue — later enqueues append without
re-arming the timer — and the sealed batch lists every document in arrival
order, whatever that order's timing. -/
theorem media_group_single_flush (e0 : EnqEvent) (rest : List EnqEvent)
    (hmg : ∀ e ∈ rest, e.mg = e0.mg)
    (hwin : ∀ e ∈ rest, e0.time ≤ e.time ∧ e.time < e0.time + MEDIA_GROUP_DELAY) :
    runCollector (e0 :: rest) =
      [⟨e0.time + MEDIA_GROUP_DELAY, e0.mg, (e0 :: rest).map EnqEvent.doc⟩] := by
  have hlt : ∀ e ∈ rest, qLe (qAdd e0.time MEDIA_GROUP_DELAY) e.time = false := by
    intro e he
    cases hq : qLe (qAdd e0.time MEDIA_GROUP_DELAY) e.time with
    | false => rfl
    | true =>
      have h2 := (qLe_iff _ _).mp hq
      rw [qAdd_eq] at h2
      exact absurd h2 (not_le.mpr (hwin e he).2)
  show simCollector (2 * (e0 :: rest).length + 1) (e0 :: rest) [] [] = _
  rw [simCollector]
  rw [if_neg (by simp [regHas])]
  have happ : regAppendDoc (regAdd [] e0.mg) e0.mg e0.doc = [(e0.mg, [e0.doc])] := by
    simp [regAppendDoc, regAdd]
  rw [happ]
  rw [simCollector_drain rest (2 * (e0 :: rest).length) (qAdd e0.time MEDIA_GROUP_DELAY) e0.mg
    [e0.doc] (by simp [List.length_cons]; omega) hmg hlt (by simp)]
  rw [qAdd_eq]
  simp

/-- Witness for C1: three documents of one album arriving at times 0, 1, 2
are flushed once, at time 2.5, in arrival order. -/
theorem media_group_single_flush_witness :
    runCollector [⟨0, "album7", 4⟩, ⟨1, "album7", 5⟩, ⟨2, "album7", 6⟩] =
      [⟨(0 : ℚ) + MEDIA_GROUP_DELAY, "album7", [4, 5, 6]⟩] := by
  apply media_group_single_flush ⟨0, "album7", 4⟩ [⟨1, "album7", 5⟩, ⟨2, "album7", 6⟩]
  · intro e he
    fin_cases he <;> rfl
  · have hD : (0 : ℚ) + MEDIA_GROUP_DELAY = mkRat 5 2 := by
      rw [← qAdd_eq]
      rfl
    intro e he
    rw [hD]
    fin_cases he <;> exact ⟨by decide, by decide⟩

end PDSBot
